import Mathlib

/-!
Verification development for the `LockFile` component
(`src/UM/LockFile.py` of the Uranium repository).

The component manages a marker ("lock") file on a shared file system:

* `_waitLockFileDisappear` spins while the marker exists and its age is
  strictly between 0 and the staleness timeout, catching only
  `FileNotFoundError` (the exists/getmtime race);
* `_createLockFile` writes the current process id, swallowing every error
  (bare `except:`) with an error-severity log line;
* `_deleteLockFile` removes the file, swallowing `FileNotFoundError`
  silently and every other error with an error-severity log line;
* `__enter__` = wait then create, `__exit__` = delete (its `None` return
  lets any exception from the `with` body propagate unchanged).

The embedding below is shallow: file-system calls are modelled by explicit
outcome oracles (each call may succeed or fail with a `FileNotFoundError`
or any other error), the wall clock and the marker observations made by
each polling iteration come from an observation stream, and the spin loop
is run on explicit fuel so that all definitions stay total and executable.
-/

/-- Outcome class of a raised Python `OSError`: `FileNotFoundError`, or any
other exception (`PermissionError`, generic `OSError`, ...). -/
inductive FsError
  | notFound
  | other
deriving DecidableEq, Repr

/-- A file on the modelled file system: its text content and its
modification time (`os.path.getmtime`), in seconds. -/
structure FileInfo where
  content : String
  mtime : Int
deriving DecidableEq, Repr

/-- The file system: a partial map from path names to files. -/
abbrev FS := String → Option FileInfo

/-- One entry sent to the `Logger.log` collaborator: severity (`"d"` debug,
`"e"` error, as in the source) and message. -/
structure LogEntry where
  sev : String
  msg : String
deriving DecidableEq, Repr

/-- Mutable world state threaded through the operations: the file system
and the log so far. -/
abbrev LockState := FS × List LogEntry

/-- `fs` with path `f` bound to file `i` (the effect of
`open(f, "w")` + write succeeding). -/
def fsUpdate (fs : FS) (f : String) (i : FileInfo) : FS :=
  fun g => if g = f then some i else fs g

/-- `fs` with path `f` removed (the effect of `os.remove(f)` succeeding). -/
def fsErase (fs : FS) (f : String) : FS :=
  fun g => if g = f then none else fs g

/-- What one iteration of the wait loop in `_waitLockFileDisappear`
observes, in the order the source evaluates the `while` condition
(line 39): `os.path.exists`, then a first `os.path.getmtime` (for
`now < getmtime + timeout`), then a second `os.path.getmtime` (for
`now > getmtime`).  `now` is `time.time()` as read before this
iteration's condition (line 37 before the loop, line 42 afterwards).
`os.path.exists` never raises in Python, so it is a plain `Bool`; each
`getmtime` call may raise, so its result is an `Except`. -/
structure PollObs where
  now : Int
  fileExists : Bool
  mtime1 : Except FsError Int
  mtime2 : Except FsError Int

/-- How one evaluation of the `while` condition ends. -/
inductive IterStep
  | cont        -- condition true: log the wait message, sleep, loop again
  | exitNormal  -- condition false: the `while` loop exits
  | exitCaught  -- `FileNotFoundError` raised, caught by the `except` (line 45)
  | raiseOther  -- any other error raised by `getmtime`: not caught, propagates
deriving DecidableEq, Repr

/-- One evaluation of the loop condition of `_waitLockFileDisappear`
(line 39), with Python's left-to-right short-circuit order:
`os.path.exists(f) and now < getmtime(f) + timeout and now > getmtime(f)`. -/
def evalIter (timeout : Int) (o : PollObs) : IterStep :=
  if o.fileExists then
    match o.mtime1 with
    | .error .notFound => .exitCaught
    | .error .other => .raiseOther
    | .ok m1 =>
      if o.now < m1 + timeout then
        match o.mtime2 with
        | .error .notFound => .exitCaught
        | .error .other => .raiseOther
        | .ok m2 => if m2 < o.now then .cont else .exitNormal
      else .exitNormal
  else .exitNormal

/-- How a fueled run of the spin loop ends: `returned k` means the
function returned normally after `k` full polling iterations (whether the
condition went false or a `FileNotFoundError` was caught), `raised k`
means iteration `k` raised an uncaught error, `spinning` means the fuel
ran out while the condition was still true. -/
inductive WaitOutcome
  | returned (k : Nat)
  | raised (k : Nat)
  | spinning
deriving DecidableEq, Repr

/-- `_waitLockFileDisappear` (lines 36-46) on an observation stream:
iteration `i` evaluates the condition on `obs i`; on `cont` it logs the
wait message, sleeps 0.1s (time passes only through the `now` field of
the next observation) and continues with iteration `i + 1`. -/
def waitLockFileDisappear (timeout : Int) (obs : Nat → PollObs) :
    Nat → Nat → WaitOutcome
  | _, 0 => .spinning
  | i, fuel + 1 =>
    match evalIter timeout (obs i) with
    | .cont => waitLockFileDisappear timeout obs (i + 1) fuel
    | .exitNormal => .returned i
    | .exitCaught => .returned i
    | .raiseOther => .raised i

/-- `_createLockFile` (lines 52-57): `open(filename, "w")` and write the
decimal process id.  `outcome` is the oracle for the file-system call:
`none` = success, `some e` = the call raised `e`.  The bare `except:`
catches every exception and logs at `"e"` severity, so the result is
always `.ok`; the `Except` return type records that a Python method may
in principle raise. -/
def createLockFile (filename : String) (pid : Nat) (createTime : Int)
    (outcome : Option FsError) (st : LockState) :
    Except FsError LockState :=
  match outcome with
  | none =>
    .ok (fsUpdate st.1 filename ⟨Nat.repr pid, createTime⟩, st.2)
  | some _ =>
    .ok (st.1, st.2 ++ [⟨"e", "Could not create lock file [" ++ filename ++ "]"⟩])

/-- `_deleteLockFile` (lines 60-75): `os.remove(filename)`.
`FileNotFoundError` is swallowed silently (the documented thread-safety
leak); any other exception is logged at `"e"` severity.  Always `.ok`. -/
def deleteLockFile (filename : String) (outcome : Option FsError)
    (st : LockState) : Except FsError LockState :=
  match outcome with
  | none => .ok (fsErase st.1 filename, st.2)
  | some .notFound => .ok st
  | some .other =>
    .ok (st.1, st.2 ++ [⟨"e", "Could not delete lock file [" ++ filename ++ "]"⟩])

/-- The state `_createLockFile` leaves behind.  Because of the bare
`except:` it always returns normally; this is the `.ok` payload of
`createLockFile`. -/
def createLockFileRun (filename : String) (pid : Nat) (createTime : Int)
    (outcome : Option FsError) (st : LockState) : LockState :=
  match outcome with
  | none => (fsUpdate st.1 filename ⟨Nat.repr pid, createTime⟩, st.2)
  | some _ =>
    (st.1, st.2 ++ [⟨"e", "Could not create lock file [" ++ filename ++ "]"⟩])

/-- The state `_deleteLockFile` leaves behind: it always returns normally;
this is the `.ok` payload of `deleteLockFile`. -/
def deleteLockFileRun (filename : String) (outcome : Option FsError)
    (st : LockState) : LockState :=
  match outcome with
  | none => (fsErase st.1 filename, st.2)
  | some .notFound => st
  | some .other =>
    (st.1, st.2 ++ [⟨"e", "Could not delete lock file [" ++ filename ++ "]"⟩])

/-- Result of `__enter__` (= `acquire`): either it returned normally with
the new state after `polls` wait iterations, or iteration `k` of the wait
loop raised an uncaught error, or the fuel ran out while spinning. -/
inductive AcquireResult
  | ok (st : LockState) (polls : Nat)
  | raised (k : Nat)
  | spinning

/-- `__enter__` (lines 78-80): `_waitLockFileDisappear()` then
`_createLockFile()`.  Each completed wait iteration logged the wait
message at `"d"` severity (line 40), so `k` debug entries are appended
before the create step runs. -/
def acquire (timeout : Int) (obs : Nat → PollObs) (fuel : Nat)
    (filename : String) (pid : Nat) (createTime : Int)
    (createOutcome : Option FsError) (wait_msg : String)
    (st : LockState) : AcquireResult :=
  match waitLockFileDisappear timeout obs 0 fuel with
  | .spinning => .spinning
  | .raised k => .raised k
  | .returned k =>
    match createLockFile filename pid createTime createOutcome
        (st.1, st.2 ++ List.replicate k ⟨"d", wait_msg⟩) with
    | .ok st1 => .ok st1 k
    | .error _ => .raised k

/-- `release` / `__exit__` body (line 91): just `_deleteLockFile()`. -/
def release (filename : String) (outcome : Option FsError)
    (st : LockState) : Except FsError LockState :=
  deleteLockFile filename outcome st

/-- Result of running a full `with LockFile(...):` scope. -/
inductive ScopeResult
  | completed (st : LockState) (exn : Option String)
  | enterRaised (k : Nat)
  | exitRaised
  | spinning

/-- A `with LockFile(...):` block: run `__enter__`; if it raised, the body
never runs and `__exit__` is not called (Python semantics).  Otherwise run
the body, which returns the new state and `some e` when it raised
exception `e`; then run `__exit__` (= `_deleteLockFile`).  `__exit__`
returns `None`, which is falsy, so the body's exception — if any —
propagates to the caller unchanged. -/
def withLock (timeout : Int) (obs : Nat → PollObs) (fuel : Nat)
    (filename : String) (pid : Nat) (createTime : Int)
    (createOutcome : Option FsError) (deleteOutcome : Option FsError)
    (wait_msg : String)
    (body : LockState → LockState × Option String)
    (st : LockState) : ScopeResult :=
  match acquire timeout obs fuel filename pid createTime createOutcome wait_msg st with
  | .spinning => .spinning
  | .raised k => .enterRaised k
  | .ok st1 _ =>
    match deleteLockFile filename deleteOutcome (body st1).1 with
    | .ok st2 => .completed st2 (body st1).2
    | .error _ => .exitRaised

/-- The `LockFile` instance configuration set by `__init__`
(lines 28-31): `self._filename`, `self._wait_msg`, `self._timeout`. -/
structure LockFile where
  filename : String
  wait_msg : String
  timeout : Int
deriving DecidableEq, Repr

/-- `__init__` with all three arguments supplied. -/
def LockFile.init (filename : String) (timeout : Int) (wait_msg : String) :
    LockFile :=
  ⟨filename, wait_msg, timeout⟩

/-- `__init__` called with only `filename`: the defaults from line 28 are
`timeout = 10` and
`wait_msg = "Waiting for lock file to disappear..."`. -/
def LockFile.initDefault (filename : String) : LockFile :=
  LockFile.init filename 10 "Waiting for lock file to disappear..."

/-- `__enter__` as a method: it reads `self._timeout`, `self._filename`
and `self._wait_msg` and never assigns any `self` field, so the instance
after the call is the instance before it. -/
def LockFile.enter (lf : LockFile) (obs : Nat → PollObs) (fuel : Nat)
    (pid : Nat) (createTime : Int) (createOutcome : Option FsError)
    (st : LockState) : LockFile × AcquireResult :=
  (lf, acquire lf.timeout obs fuel lf.filename pid createTime createOutcome
    lf.wait_msg st)

/-- `__exit__` as a method: it reads `self._filename` and never assigns
any `self` field. -/
def LockFile.exitScope (lf : LockFile) (outcome : Option FsError)
    (st : LockState) : LockFile × Except FsError LockState :=
  (lf, deleteLockFile lf.filename outcome st)

/-- The empty file system. -/
def emptyFS : FS := fun _ => none

/-- `os.path.getmtime` derived from the file system itself: a missing
file raises `FileNotFoundError`. -/
def mtimeRead (fs : FS) (f : String) : Except FsError Int :=
  match fs f with
  | some i => .ok i.mtime
  | none => .error .notFound

/-- The observation stream of a quiescent world: no other process touches
the file system and the clock stays at `now`, so every poll sees the
file system `fs` consistently. -/
def obsOfFS (fs : FS) (f : String) (now : Int) : Nat → PollObs :=
  fun _ => ⟨now, (fs f).isSome, mtimeRead fs f, mtimeRead fs f⟩

/-! ### Helper lemmas about the wait loop -/

theorem evalIter_cont_iff (timeout : Int) (o : PollObs) (m : Int)
    (h1 : o.mtime1 = .ok m) (h2 : o.mtime2 = .ok m) :
    evalIter timeout o = .cont ↔
      (o.fileExists = true ∧ m < o.now ∧ o.now < m + timeout) := by
  by_cases hfe : o.fileExists = true <;>
    by_cases hhi : o.now < m + timeout <;>
      by_cases hlo : m < o.now <;>
        simp [evalIter, h1, h2, hfe, hhi, hlo]

theorem evalIter_exitNormal_of_absent (timeout : Int) (o : PollObs)
    (hfe : o.fileExists = false) : evalIter timeout o = .exitNormal := by
  simp [evalIter, hfe]

theorem evalIter_exitNormal_of_stale (timeout : Int) (o : PollObs) (m : Int)
    (h1 : o.mtime1 = .ok m) (hhi : m + timeout ≤ o.now) :
    evalIter timeout o = .exitNormal := by
  by_cases hfe : o.fileExists = true <;>
    simp [evalIter, h1, hfe, not_lt.mpr hhi]

theorem waitLoop_returned (timeout : Int) (obs : Nat → PollObs) (k : Nat) :
    ∀ (i fuel : Nat),
      (∀ j, j < k → evalIter timeout (obs (i + j)) = .cont) →
      (evalIter timeout (obs (i + k)) = .exitNormal ∨
        evalIter timeout (obs (i + k)) = .exitCaught) →
      k < fuel →
      waitLockFileDisappear timeout obs i fuel = .returned (i + k) := by
  induction k with
  | zero =>
    intro i fuel _ hexit hlt
    match fuel, hlt with
    | fuel + 1, _ =>
      rcases hexit with h | h <;> rw [Nat.add_zero] at h ⊢ <;>
        simp [waitLockFileDisappear, h]
  | succ k ih =>
    intro i fuel hcont hexit hlt
    match fuel, hlt with
    | fuel + 1, hlt =>
      have h0 : evalIter timeout (obs i) = .cont := by
        have h := hcont 0 (Nat.succ_pos k)
        rwa [Nat.add_zero] at h
      have hrec := ih (i + 1) fuel
        (fun j hj => by
          have h := hcont (j + 1) (by omega)
          have e : i + (j + 1) = i + 1 + j := by omega
          rwa [e] at h)
        (by
          have e : i + (k + 1) = i + 1 + k := by omega
          rwa [e] at hexit)
        (by omega)
      have e : i + (k + 1) = i + 1 + k := by omega
      rw [e]
      simp only [waitLockFileDisappear, h0]
      exact hrec

theorem waitLoop_raised_evalIter (timeout : Int) (obs : Nat → PollObs) :
    ∀ (fuel i k : Nat), waitLockFileDisappear timeout obs i fuel = .raised k →
      evalIter timeout (obs k) = .raiseOther := by
  intro fuel
  induction fuel with
  | zero => intro i k h; simp [waitLockFileDisappear] at h
  | succ fuel ih =>
    intro i k h
    rcases he : evalIter timeout (obs i) with _ | _ | _ | _ <;>
      simp only [waitLockFileDisappear, he] at h
    · exact ih (i + 1) k h
    · simp at h
    · simp at h
    · simp only [WaitOutcome.raised.injEq] at h
      rw [← h]
      exact he

theorem evalIter_raiseOther_elim (timeout : Int) (o : PollObs)
    (h : evalIter timeout o = .raiseOther) :
    o.fileExists = true ∧
      (o.mtime1 = .error .other ∨ o.mtime2 = .error .other) := by
  obtain ⟨now, fe, m1, m2⟩ := o
  cases fe
  · simp [evalIter] at h
  · refine ⟨rfl, ?_⟩
    rcases m1 with e1 | v1
    · cases e1
      · simp [evalIter] at h
      · exact Or.inl rfl
    · by_cases hhi : now < v1 + timeout
      · rcases m2 with e2 | v2
        · cases e2
          · simp [evalIter, hhi] at h
          · exact Or.inr rfl
        · by_cases hlo : v2 < now <;> simp [evalIter, hhi, hlo] at h
      · simp [evalIter, hhi] at h

theorem createLockFile_ok (f : String) (pid : Nat) (t : Int)
    (co : Option FsError) (st : LockState) :
    createLockFile f pid t co st = .ok (createLockFileRun f pid t co st) := by
  cases co <;> rfl

theorem deleteLockFile_ok (f : String) (delo : Option FsError)
    (st : LockState) :
    deleteLockFile f delo st = .ok (deleteLockFileRun f delo st) := by
  rcases delo with _ | e
  · rfl
  · cases e <;> rfl

theorem evalIter_of_ok (timeout : Int) (o : PollObs) (m : Int)
    (h1 : o.mtime1 = .ok m) (h2 : o.mtime2 = .ok m) :
    evalIter timeout o = .cont ∨ evalIter timeout o = .exitNormal := by
  by_cases hfe : o.fileExists = true <;>
    by_cases hhi : o.now < m + timeout <;>
      by_cases hlo : m < o.now <;>
        simp [evalIter, h1, h2, hfe, hhi, hlo]

/-! ### Claim theorems -/

/-- C1: during `acquire()`, the polling loop keeps waiting only while the
marker file exists and its age (`now - mtime`, re-evaluated each
iteration) is strictly between 0 and `staleness_timeout`; given a marker
whose mtime is older than `staleness_timeout`, `acquire()` exits the wait
loop without blocking (0 iterations) and proceeds to recreate the marker,
and no error is ever raised by the loop when the mtime reads succeed (or
fail only with file-not-found). -/
theorem C1_stale_marker_no_block (timeout : Int) (obs : Nat → PollObs) :
    (∀ (o : PollObs) (m : Int), o.mtime1 = .ok m → o.mtime2 = .ok m →
      (evalIter timeout o = .cont ↔
        (o.fileExists = true ∧ m < o.now ∧ o.now < m + timeout))) ∧
    (∀ (m : Int) (fuel : Nat) (f : String) (pid : Nat) (t : Int)
        (wait_msg : String) (st : LockState),
      (obs 0).mtime1 = .ok m → m + timeout < (obs 0).now →
      acquire timeout obs (fuel + 1) f pid t none wait_msg st =
        .ok (fsUpdate st.1 f ⟨Nat.repr pid, t⟩, st.2) 0) ∧
    (∀ (fuel i k : Nat),
      (∀ j, (obs j).mtime1 ≠ .error .other ∧ (obs j).mtime2 ≠ .error .other) →
      waitLockFileDisappear timeout obs i fuel ≠ .raised k) := by
  refine ⟨fun o m h1 h2 => evalIter_cont_iff timeout o m h1 h2, ?_, ?_⟩
  · intro m fuel f pid t wait_msg st h1 hstale
    have hexit : evalIter timeout (obs 0) = .exitNormal :=
      evalIter_exitNormal_of_stale timeout (obs 0) m h1 (le_of_lt hstale)
    have hw : waitLockFileDisappear timeout obs 0 (fuel + 1) = .returned 0 := by
      have h := waitLoop_returned timeout obs 0 0 (fuel + 1)
        (fun j hj => absurd hj (Nat.not_lt_zero j))
        (by rw [Nat.add_zero]; exact Or.inl hexit)
        (Nat.succ_pos fuel)
      simpa using h
    simp [acquire, hw, createLockFile]
  · intro fuel i k hok h
    have hro := waitLoop_raised_evalIter timeout obs fuel i k h
    have helim := evalIter_raiseOther_elim timeout (obs k) hro
    rcases helim.2 with h1 | h2
    · exact (hok k).1 h1
    · exact (hok k).2 h2

/-- Witness for C1: a marker with mtime 90, timeout 10 and current time
101 (age 11 > 10) lets `acquire` return after 0 polling iterations,
creating the new marker. -/
theorem C1_stale_marker_no_block_w :
    acquire 10 (fun _ => ⟨101, true, .ok 90, .ok 90⟩) 1 "dir.lock" 7 200 none
        "Waiting for lock file to disappear..." (emptyFS, []) =
      .ok (fsUpdate emptyFS "dir.lock" ⟨Nat.repr 7, 200⟩, []) 0 :=
  (C1_stale_marker_no_block 10 (fun _ => ⟨101, true, .ok 90, .ok 90⟩)).2.1
    90 0 "dir.lock" 7 200 "Waiting for lock file to disappear..."
    (emptyFS, []) rfl (by decide)

/-- C2, counterexample: with `timeout = 10 > 0` and a marker whose mtime
exactly equals the current time (`mtime = now = 0`), which the holder
never releases, the wait condition is already false (`now > mtime` is
strict), so the loop exits after 0 polling iterations instead of
blocking: `acquire` does not wait at all. -/
theorem C2_equal_mtime_cex :
    evalIter 10 ⟨0, true, .ok 0, .ok 0⟩ = .exitNormal ∧
    waitLockFileDisappear 10 (fun _ => ⟨0, true, .ok 0, .ok 0⟩) 0 5 =
      .returned 0 := by
  exact ⟨by decide, by decide⟩

/-- C2, amended: given a marker whose mtime is strictly in the past but
within the staleness window (`mtime < now < mtime + timeout`) at each of
the first `k` polls, a concurrent `acquire()` blocks — the condition holds
so the loop polls — for exactly those `k` iterations, until the first poll
at which either the holder has released the marker (it no longer exists)
or the marker's age has reached the staleness timeout; there the wait
loop returns. -/
theorem C2_fresh_blocks_amended (timeout : Int) (obs : Nat → PollObs)
    (k fuel : Nat)
    (hfresh : ∀ j, j < k → ∃ m, (obs j).fileExists = true ∧
      (obs j).mtime1 = .ok m ∧ (obs j).mtime2 = .ok m ∧
      m < (obs j).now ∧ (obs j).now < m + timeout)
    (hstop : (obs k).fileExists = false ∨
      ∃ m, (obs k).mtime1 = .ok m ∧ m + timeout ≤ (obs k).now)
    (hfuel : k < fuel) :
    waitLockFileDisappear timeout obs 0 fuel = .returned k ∧
    (∀ j, j < k → evalIter timeout (obs j) = .cont) := by
  have hcont : ∀ j, j < k → evalIter timeout (obs j) = .cont := by
    intro j hj
    obtain ⟨m, hfe, h1, h2, hlo, hhi⟩ := hfresh j hj
    exact (evalIter_cont_iff timeout (obs j) m h1 h2).mpr ⟨hfe, hlo, hhi⟩
  have hexit : evalIter timeout (obs k) = .exitNormal := by
    rcases hstop with hfe | ⟨m, h1, hhi⟩
    · exact evalIter_exitNormal_of_absent timeout (obs k) hfe
    · exact evalIter_exitNormal_of_stale timeout (obs k) m h1 hhi
  refine ⟨?_, hcont⟩
  have h := waitLoop_returned timeout obs k 0 fuel
    (fun j hj => by rw [Nat.zero_add]; exact hcont j hj)
    (by rw [Nat.zero_add]; exact Or.inl hexit) hfuel
  simpa using h

/-- Witness for the amended C2: one fresh poll (mtime 0, now 5,
timeout 10), then the holder releases; the loop blocks for exactly one
iteration and returns at poll 1. -/
theorem C2_fresh_blocks_amended_w :
    waitLockFileDisappear 10
      (fun i => if i = 0 then ⟨5, true, .ok 0, .ok 0⟩
        else ⟨6, false, .error .notFound, .error .notFound⟩) 0 3 =
      .returned 1 :=
  (C2_fresh_blocks_amended 10
    (fun i => if i = 0 then ⟨5, true, .ok 0, .ok 0⟩
      else ⟨6, false, .error .notFound, .error .notFound⟩) 1 3
    (fun j hj =>
      match j, hj with
      | 0, _ => ⟨0, rfl, rfl, rfl, by decide, by decide⟩
      | j + 1, hj => absurd hj (by omega))
    (Or.inl rfl) (by omega)).1

/-- C3, counterexample: the claim says no operation ever raises for every
possible outcome of the underlying file-system calls, but when the mtime
read in the wait loop fails with an error other than `FileNotFoundError`
(e.g. `PermissionError`), only `FileNotFoundError` is caught, so
`acquire()` raises at its very first iteration. -/
theorem C3_acquire_can_raise_cex :
    acquire 10 (fun _ => ⟨5, true, .error .other, .error .other⟩) 3
      "dir.lock" 42 5 none "Waiting for lock file to disappear..."
      (emptyFS, []) = .raised 0 := by
  rfl

/-- C3, amended: the create, delete (= release / scoped exit) operations
never raise to their caller for any outcome of the underlying calls, and
the only way `acquire()`'s wait loop raises is an `os.path.getmtime` call
failing with an error other than `FileNotFoundError` while the marker
exists; that one error propagates. -/
theorem C3_no_raise_amended (timeout : Int) (obs : Nat → PollObs)
    (fuel i k : Nat) (f : String) (pid : Nat) (t : Int)
    (co delo : Option FsError) (st : LockState) :
    createLockFile f pid t co st = .ok (createLockFileRun f pid t co st) ∧
    deleteLockFile f delo st = .ok (deleteLockFileRun f delo st) ∧
    (waitLockFileDisappear timeout obs i fuel = .raised k →
      (obs k).fileExists = true ∧
        ((obs k).mtime1 = .error .other ∨ (obs k).mtime2 = .error .other)) := by
  refine ⟨createLockFile_ok f pid t co st, deleteLockFile_ok f delo st, ?_⟩
  intro h
  exact evalIter_raiseOther_elim timeout (obs k)
    (waitLoop_raised_evalIter timeout obs fuel i k h)

/-- Witness for the amended C3: in a run where the wait loop raised at
poll 0, that poll indeed saw the file existing and an mtime read failing
with a non-file-not-found error. -/
theorem C3_no_raise_amended_w :
    ((⟨5, true, .error .other, .error .other⟩ : PollObs).fileExists = true ∧
      ((⟨5, true, .error .other, .error .other⟩ : PollObs).mtime1 =
          .error .other ∨
        (⟨5, true, .error .other, .error .other⟩ : PollObs).mtime2 =
          .error .other)) :=
  (C3_no_raise_amended 10 (fun _ => ⟨5, true, .error .other, .error .other⟩)
    3 0 0 "dir.lock" 42 5 none none (emptyFS, [])).2.2 rfl

/-- C4: if at some poll the marker still exists at the existence check but
has been deleted before the mtime read (`FileNotFoundError` from
`os.path.getmtime`), `acquire()` does not raise: the wait loop exits at
that very poll and `acquire` proceeds to create the marker. -/
theorem C4_race_tolerance (timeout : Int) (obs : Nat → PollObs)
    (k fuel : Nat) (f : String) (pid : Nat) (t : Int) (wait_msg : String)
    (st : LockState)
    (hcont : ∀ j, j < k → evalIter timeout (obs j) = .cont)
    (hfe : (obs k).fileExists = true)
    (hm1 : (obs k).mtime1 = .error .notFound)
    (hfuel : k < fuel) :
    waitLockFileDisappear timeout obs 0 fuel = .returned k ∧
    acquire timeout obs fuel f pid t none wait_msg st =
      .ok (fsUpdate st.1 f ⟨Nat.repr pid, t⟩,
        st.2 ++ List.replicate k ⟨"d", wait_msg⟩) k := by
  have hexit : evalIter timeout (obs k) = .exitCaught := by
    simp [evalIter, hfe, hm1]
  have hw : waitLockFileDisappear timeout obs 0 fuel = .returned k := by
    have h := waitLoop_returned timeout obs k 0 fuel
      (fun j hj => by rw [Nat.zero_add]; exact hcont j hj)
      (by rw [Nat.zero_add]; exact Or.inr hexit) hfuel
    simpa using h
  exact ⟨hw, by simp [acquire, hw, createLockFile]⟩

/-- Witness for C4: the marker exists at poll 0 but the mtime read raises
`FileNotFoundError`; `acquire` returns normally after 0 polls and creates
the marker. -/
theorem C4_race_tolerance_w :
    acquire 10 (fun _ => ⟨5, true, .error .notFound, .ok 0⟩) 1 "dir.lock"
      9 6 none "Waiting for lock file to disappear..." (emptyFS, []) =
      .ok (fsUpdate emptyFS "dir.lock" ⟨Nat.repr 9, 6⟩,
        [] ++ List.replicate 0 ⟨"d", "Waiting for lock file to disappear..."⟩)
        0 :=
  (C4_race_tolerance 10 (fun _ => ⟨5, true, .error .notFound, .ok 0⟩) 0 1
    "dir.lock" 9 6 "Waiting for lock file to disappear..." (emptyFS, [])
    (fun j hj => absurd hj (Nat.not_lt_zero j)) rfl rfl (by omega)).2

/-- C5: once the scope has been entered (`acquire` returned normally),
leaving it — whether the body completed normally (`exn = none`) or raised
(`exn = some e`) — runs `release` exactly once (the final state is one
application of `_deleteLockFile` to the post-body state), the body's
exception propagates to the caller unchanged, and with a successful
deletion the marker file is gone. -/
theorem C5_scoped_release (timeout : Int) (obs : Nat → PollObs) (fuel : Nat)
    (f : String) (pid : Nat) (t : Int) (co delo : Option FsError)
    (wait_msg : String) (body : LockState → LockState × Option String)
    (st st1 : LockState) (k : Nat)
    (hacq : acquire timeout obs fuel f pid t co wait_msg st = .ok st1 k) :
    deleteLockFile f delo (body st1).1 =
      .ok (deleteLockFileRun f delo (body st1).1) ∧
    withLock timeout obs fuel f pid t co delo wait_msg body st =
      .completed (deleteLockFileRun f delo (body st1).1) (body st1).2 ∧
    (delo = none → (deleteLockFileRun f delo (body st1).1).1 f = none) := by
  refine ⟨deleteLockFile_ok f delo (body st1).1, ?_, ?_⟩
  · simp [withLock, hacq, deleteLockFile_ok]
  · intro h
    subst h
    simp [deleteLockFileRun, fsErase]

/-- Witness for C5: an empty file system, an immediate acquire, a body
that raises `"boom"`; the scope completes with the same exception
propagating and the marker deleted. -/
theorem C5_scoped_release_w :
    withLock 10 (fun _ => ⟨0, false, .error .notFound, .error .notFound⟩) 1
      "dir.lock" 3 1 none none "Waiting for lock file to disappear..."
      (fun s => (s, some "boom")) (emptyFS, []) =
      .completed
        (deleteLockFileRun "dir.lock" none
          (fsUpdate emptyFS "dir.lock" ⟨Nat.repr 3, 1⟩,
            [] ++ List.replicate 0
              ⟨"d", "Waiting for lock file to disappear..."⟩))
        (some "boom") :=
  (C5_scoped_release 10
    (fun _ => ⟨0, false, .error .notFound, .error .notFound⟩) 1 "dir.lock"
    3 1 none none "Waiting for lock file to disappear..."
    (fun s => (s, some "boom")) (emptyFS, [])
    (fsUpdate emptyFS "dir.lock" ⟨Nat.repr 3, 1⟩,
      [] ++ List.replicate 0 ⟨"d", "Waiting for lock file to disappear..."⟩)
    0 rfl).2.1

/-- C6: whenever the wait loop returns after `k` polls, `acquire()`
returns normally, and afterwards either the marker file holds the decimal
process identifier of the caller, or the creation failed and the message
`Could not create lock file [...]` was logged at `"e"` severity. -/
theorem C6_acquire_post (timeout : Int) (obs : Nat → PollObs) (fuel : Nat)
    (f : String) (pid : Nat) (t : Int) (co : Option FsError)
    (wait_msg : String) (st : LockState) (k : Nat)
    (h : waitLockFileDisappear timeout obs 0 fuel = .returned k) :
    acquire timeout obs fuel f pid t co wait_msg st =
      .ok (createLockFileRun f pid t co
        (st.1, st.2 ++ List.replicate k ⟨"d", wait_msg⟩)) k ∧
    ((createLockFileRun f pid t co
        (st.1, st.2 ++ List.replicate k ⟨"d", wait_msg⟩)).1 f =
          some ⟨Nat.repr pid, t⟩ ∨
      (createLockFileRun f pid t co
        (st.1, st.2 ++ List.replicate k ⟨"d", wait_msg⟩)).2 =
          (st.2 ++ List.replicate k ⟨"d", wait_msg⟩) ++
            [⟨"e", "Could not create lock file [" ++ f ++ "]"⟩]) := by
  constructor
  · simp [acquire, h, createLockFile_ok]
  · rcases co with _ | e
    · exact Or.inl (by simp [createLockFileRun, fsUpdate])
    · exact Or.inr rfl

/-- Witness for C6: with the marker absent the loop returns after 0
polls, and with a failing create (`some .other`) `acquire` still returns
normally, the error having been logged. -/
theorem C6_acquire_post_w :
    acquire 10 (fun _ => ⟨0, false, .error .notFound, .error .notFound⟩) 1
      "dir.lock" 11 4 (some .other)
      "Waiting for lock file to disappear..." (emptyFS, []) =
      .ok (createLockFileRun "dir.lock" 11 4 (some .other)
        (emptyFS,
          [] ++ List.replicate 0
            ⟨"d", "Waiting for lock file to disappear..."⟩)) 0 :=
  (C6_acquire_post 10
    (fun _ => ⟨0, false, .error .notFound, .error .notFound⟩) 1 "dir.lock"
    11 4 (some .other) "Waiting for lock file to disappear..."
    (emptyFS, []) 0 (by decide)).1

/-- C7: `release()` never raises: a deletion failing because the file is
already absent is silently ignored (same state, nothing logged); a
deletion failing for any other reason logs at `"e"` severity and leaves
the file system unchanged; and for every outcome `release` returns
normally. -/
theorem C7_release_never_raises (f : String) (st : LockState) :
    release f (some .notFound) st = .ok st ∧
    release f (some .other) st =
      .ok (st.1,
        st.2 ++ [⟨"e", "Could not delete lock file [" ++ f ++ "]"⟩]) ∧
    ∀ o, release f o st = .ok (deleteLockFileRun f o st) :=
  ⟨rfl, rfl, fun o => deleteLockFile_ok f o st⟩

/-- C8: happy path on a file system with no marker at path `P`:
`exists(P)` is false before `acquire()`; `acquire()` returns after 0
polls having created the marker with the caller's decimal process id as
content, so `exists(P)` is true; and `release()` (successful deletion)
makes `exists(P)` false again. -/
theorem C8_happy_path (fs : FS) (log : List LogEntry) (P : String)
    (pid : Nat) (t timeout : Int) (wait_msg : String)
    (hP : fs P = none) :
    (fs P).isSome = false ∧
    acquire timeout (obsOfFS fs P t) 1 P pid t none wait_msg (fs, log) =
      .ok (fsUpdate fs P ⟨Nat.repr pid, t⟩, log) 0 ∧
    (fsUpdate fs P ⟨Nat.repr pid, t⟩ P).isSome = true ∧
    fsUpdate fs P ⟨Nat.repr pid, t⟩ P = some ⟨Nat.repr pid, t⟩ ∧
    release P none (fsUpdate fs P ⟨Nat.repr pid, t⟩, log) =
      .ok (fsErase (fsUpdate fs P ⟨Nat.repr pid, t⟩) P, log) ∧
    (fsErase (fsUpdate fs P ⟨Nat.repr pid, t⟩) P P).isSome = false := by
  have hfe : (obsOfFS fs P t 0).fileExists = false := by
    simp [obsOfFS, hP]
  have hexit : evalIter timeout (obsOfFS fs P t 0) = .exitNormal :=
    evalIter_exitNormal_of_absent timeout (obsOfFS fs P t 0) hfe
  have hw : waitLockFileDisappear timeout (obsOfFS fs P t) 0 1 =
      .returned 0 := by
    have h := waitLoop_returned timeout (obsOfFS fs P t) 0 0 1
      (fun j hj => absurd hj (Nat.not_lt_zero j))
      (by rw [Nat.add_zero]; exact Or.inl hexit) Nat.one_pos
    simpa using h
  refine ⟨by rw [hP]; rfl, by simp [acquire, hw, createLockFile], ?_, ?_,
    rfl, ?_⟩
  · simp [fsUpdate]
  · simp [fsUpdate]
  · simp [fsErase]

/-- Witness for C8: the empty file system and path `dir.lock`. -/
theorem C8_happy_path_w :
    acquire 10 (obsOfFS emptyFS "dir.lock" 0) 1 "dir.lock" 5 0 none
      "Waiting for lock file to disappear..." (emptyFS, []) =
      .ok (fsUpdate emptyFS "dir.lock" ⟨Nat.repr 5, 0⟩, []) 0 :=
  (C8_happy_path emptyFS [] "dir.lock" 5 0 10
    "Waiting for lock file to disappear..." rfl).2.1

/-- C9: constructing the guard with only a path yields the documented
defaults — `timeout = 10` seconds and the wait message
`Waiting for lock file to disappear...` — and neither `__enter__`
(acquire) nor `__exit__` (release) modifies the configuration fields set
by `__init__`. -/
theorem C9_defaults (f : String) :
    LockFile.initDefault f =
      ⟨f, "Waiting for lock file to disappear...", 10⟩ ∧
    (LockFile.initDefault f).timeout = 10 ∧
    (LockFile.initDefault f).wait_msg =
      "Waiting for lock file to disappear..." ∧
    (∀ (lf : LockFile) (obs : Nat → PollObs) (fuel pid : Nat) (t : Int)
        (co : Option FsError) (st : LockState),
      (LockFile.enter lf obs fuel pid t co st).1 = lf) ∧
    (∀ (lf : LockFile) (o : Option FsError) (st : LockState),
      (LockFile.exitScope lf o st).1 = lf) :=
  ⟨rfl, rfl, rfl, fun _ _ _ _ _ _ _ => rfl, fun _ _ _ => rfl⟩

/-- C10: for every non-positive `staleness_timeout`, the wait condition
`now < mtime + timeout ∧ mtime < now` is unsatisfiable, so `acquire()`
never waits: it returns after 0 polls and immediately (over)writes the
marker, even when a marker exists with any mtime — including a perfectly
fresh one. -/
theorem C10_nonpositive_timeout (timeout : Int) (ht : timeout ≤ 0) :
    (∀ (now m : Int), ¬(now < m + timeout ∧ m < now)) ∧
    (∀ (obs : Nat → PollObs) (m : Int) (fuel : Nat) (f : String)
        (pid : Nat) (t : Int) (wait_msg : String) (st : LockState),
      (obs 0).mtime1 = .ok m → (obs 0).mtime2 = .ok m →
      acquire timeout obs (fuel + 1) f pid t none wait_msg st =
        .ok (fsUpdate st.1 f ⟨Nat.repr pid, t⟩, st.2) 0) := by
  constructor
  · rintro now m ⟨h1, h2⟩
    omega
  · intro obs m fuel f pid t wait_msg st h1 h2
    have hexit : evalIter timeout (obs 0) = .exitNormal := by
      rcases evalIter_of_ok timeout (obs 0) m h1 h2 with he | he
      · exfalso
        obtain ⟨-, hlo, hhi⟩ :=
          (evalIter_cont_iff timeout (obs 0) m h1 h2).mp he
        omega
      · exact he
    have hw : waitLockFileDisappear timeout obs 0 (fuel + 1) =
        .returned 0 := by
      have h := waitLoop_returned timeout obs 0 0 (fuel + 1)
        (fun j hj => absurd hj (Nat.not_lt_zero j))
        (by rw [Nat.add_zero]; exact Or.inl hexit)
        (Nat.succ_pos fuel)
      simpa using h
    simp [acquire, hw, createLockFile]

/-- Witness for C10: `timeout = 0` with a fresh marker (mtime = now = 5):
`acquire` still returns after 0 polls and overwrites the marker. -/
theorem C10_nonpositive_timeout_w :
    acquire 0 (fun _ => ⟨5, true, .ok 5, .ok 5⟩) 1 "dir.lock" 2 9 none
      "Waiting for lock file to disappear..." (emptyFS, []) =
      .ok (fsUpdate emptyFS "dir.lock" ⟨Nat.repr 2, 9⟩, []) 0 :=
  (C10_nonpositive_timeout 0 (by decide)).2
    (fun _ => ⟨5, true, .ok 5, .ok 5⟩) 5 0 "dir.lock" 2 9
    "Waiting for lock file to disappear..." (emptyFS, []) rfl rfl
